import Mathlib

/-!
Verification of the EdgePulse-Pi5 analysis-and-alerting pipeline.

The development shallow-embeds the core of the repository:
`VitalSignsAnalyzer` (threshold classification, trend detection over
rolling windows, cooldown filtering) from `src/analyzer.py`,
`AlertManager.send_alert` (severity routing, alert history ring buffer)
from `src/alerts.py`, and the consecutive-failure escalation of the
monitoring loop in `main.py`.

Numeric values are modelled as rationals, timestamps as rationals
(seconds), and the Python dict-shaped readings and alert dicts as
records with optional fields.
-/

namespace EdgePulse

/-- Alert severity tier, ordered info < warning < critical. -/
inductive Severity where
  | info
  | warning
  | critical
deriving DecidableEq, Repr

/-- Temperature unit of a reading (`temperature_unit`, default C). -/
inductive TempUnit where
  | C
  | F
deriving DecidableEq, Repr

/-- One alert dictionary as built in `src/analyzer.py` and `main.py`:
`type`, `severity`, optional `value` and `threshold` fields.  The
human-readable `message` and the `timestamp` are not modelled; the
cooldown filter keys on `type` and `severity` only, and the filter
time is passed explicitly. -/
structure Alert where
  kind : String
  severity : Severity
  value : Option ℚ
  threshold : Option ℚ
deriving DecidableEq, Repr

/-- Per-vital threshold configuration for heart rate and temperature:
`{min, max, critical_min, critical_max}` as read from
`self.thresholds` in `src/analyzer.py`. -/
structure VitalThresholds where
  min : ℚ
  max : ℚ
  critical_min : ℚ
  critical_max : ℚ
deriving DecidableEq, Repr

/-- SpO2 threshold configuration: `_analyze_spo2` only ever reads the
keys `critical_min` and `min`. -/
structure Spo2Thresholds where
  min : ℚ
  critical_min : ℚ
deriving DecidableEq, Repr

/-- The full threshold configuration handed to `VitalSignsAnalyzer`. -/
structure Thresholds where
  heart_rate : VitalThresholds
  spo2 : Spo2Thresholds
  temperature : VitalThresholds
deriving DecidableEq, Repr

/-- Default thresholds (the `.get` fallback values in `src/analyzer.py`). -/
def defaultThresholds : Thresholds :=
  { heart_rate := { min := 60, max := 100, critical_min := 40, critical_max := 150 }
    spo2 := { min := 95, critical_min := 90 }
    temperature := { min := 36.1, max := 37.8, critical_min := 35.0, critical_max := 39.0 } }

/-- One acquisition sample (`readings` dict): optional vitals plus the
temperature unit (default C via `readings.get` in the source). -/
structure Reading where
  heart_rate : Option ℚ
  spo2 : Option ℚ
  temperature : Option ℚ
  temperature_unit : TempUnit
deriving DecidableEq, Repr

/-- Body of `_analyze_heart_rate` once the value is present: the
`if / elif` chain critical_min, critical_max, min, max, each branch
appending a single alert dict. -/
def analyzeHeartRateVal (th : VitalThresholds) (hr : ℚ) : List Alert :=
  if hr < th.critical_min then
    [{ kind := "heart_rate", severity := .critical, value := some hr,
       threshold := some th.critical_min }]
  else if hr > th.critical_max then
    [{ kind := "heart_rate", severity := .critical, value := some hr,
       threshold := some th.critical_max }]
  else if hr < th.min then
    [{ kind := "heart_rate", severity := .warning, value := some hr,
       threshold := some th.min }]
  else if hr > th.max then
    [{ kind := "heart_rate", severity := .warning, value := some hr,
       threshold := some th.max }]
  else []

/-- `_analyze_heart_rate`: returns no alerts when the reading lacks a
heart rate. -/
def analyzeHeartRate (th : VitalThresholds) (hr : Option ℚ) : List Alert :=
  match hr with
  | none => []
  | some v => analyzeHeartRateVal th v

/-- Body of `_analyze_spo2` once the value is present: the `if / elif`
chain critical_min, min. -/
def analyzeSpo2Val (th : Spo2Thresholds) (v : ℚ) : List Alert :=
  if v < th.critical_min then
    [{ kind := "spo2", severity := .critical, value := some v,
       threshold := some th.critical_min }]
  else if v < th.min then
    [{ kind := "spo2", severity := .warning, value := some v,
       threshold := some th.min }]
  else []

/-- `_analyze_spo2`: returns no alerts when the reading lacks SpO2. -/
def analyzeSpo2 (th : Spo2Thresholds) (v : Option ℚ) : List Alert :=
  match v with
  | none => []
  | some x => analyzeSpo2Val th x

/-- Fahrenheit-to-Celsius conversion performed inside
`_analyze_temperature`: `temp = (temp - 32) * 5/9` when the unit is F. -/
def toCelsius (u : TempUnit) (t : ℚ) : ℚ :=
  match u with
  | .C => t
  | .F => (t - 32) * 5 / 9

/-- Body of `_analyze_temperature` after unit conversion: the
`if / elif` chain critical_min, critical_max, min, max, where the
fever (`max`) branch picks warning below 38.5 and critical otherwise. -/
def analyzeTempVal (th : VitalThresholds) (t : ℚ) : List Alert :=
  if t < th.critical_min then
    [{ kind := "temperature", severity := .critical, value := some t,
       threshold := some th.critical_min }]
  else if t > th.critical_max then
    [{ kind := "temperature", severity := .critical, value := some t,
       threshold := some th.critical_max }]
  else if t < th.min then
    [{ kind := "temperature", severity := .warning, value := some t,
       threshold := some th.min }]
  else if t > th.max then
    [{ kind := "temperature",
       severity := if t < 38.5 then .warning else .critical,
       value := some t, threshold := some th.max }]
  else []

/-- `_analyze_temperature`: skips when the reading lacks a temperature,
otherwise converts the raw value to Celsius and classifies it. -/
def analyzeTemperature (th : VitalThresholds) (r : Reading) : List Alert :=
  match r.temperature with
  | none => []
  | some t => analyzeTempVal th (toCelsius r.temperature_unit t)

example : analyzeHeartRateVal defaultThresholds.heart_rate 45 =
    [{ kind := "heart_rate", severity := .warning, value := some 45,
       threshold := some 60 }] := by decide

example : analyzeSpo2Val defaultThresholds.spo2 88 =
    [{ kind := "spo2", severity := .critical, value := some 88,
       threshold := some 90 }] := by decide

example : analyzeTempVal defaultThresholds.temperature 38.5 =
    [{ kind := "temperature", severity := .critical, value := some 38.5,
       threshold := some 37.8 }] := by norm_num [analyzeTempVal, defaultThresholds]

/-- `deque(maxlen=cap)` append: the new value goes to the right, and
the leftmost entries are evicted so that at most `cap` remain. -/
def dequeAppend (cap : ℕ) (h : List ℚ) (x : ℚ) : List ℚ :=
  let h2 := h ++ [x]
  if h2.length > cap then h2.drop (h2.length - cap) else h2

/-- Mean of the last five entries: `sum(list(h)[-5:]) / 5`. -/
def recentAvg (h : List ℚ) : ℚ :=
  (h.drop (h.length - 5)).sum / 5

/-- Mean of the five entries before those: `sum(list(h)[-10:-5]) / 5`. -/
def olderAvg (h : List ℚ) : ℚ :=
  ((h.drop (h.length - 10)).take 5).sum / 5

/-- Heart-rate block of `_analyze_trends`: with at least 10 buffered
samples, flag a warning when the recent mean exceeds the older mean by
more than 20 bpm. -/
def hrTrend (h : List ℚ) : List Alert :=
  if h.length ≥ 10 then
    if recentAvg h > olderAvg h + 20 then
      [{ kind := "heart_rate_trend", severity := .warning,
         value := some (recentAvg h - olderAvg h), threshold := none }]
    else []
  else []

/-- SpO2 block of `_analyze_trends`: warning when the recent mean falls
below the older mean by more than 3 points. -/
def spo2Trend (h : List ℚ) : List Alert :=
  if h.length ≥ 10 then
    if recentAvg h < olderAvg h - 3 then
      [{ kind := "spo2_trend", severity := .warning,
         value := some (recentAvg h - olderAvg h), threshold := none }]
    else []
  else []

/-- Temperature block of `_analyze_trends`: info event when the recent
mean exceeds the older mean by more than 0.5 degrees. -/
def tempTrend (h : List ℚ) : List Alert :=
  if h.length ≥ 10 then
    if recentAvg h > olderAvg h + 0.5 then
      [{ kind := "temperature_trend", severity := .info,
         value := some (recentAvg h - olderAvg h), threshold := none }]
    else []
  else []

/-- Mutable state of `VitalSignsAnalyzer`: the three rolling histories
(deques with maxlen 60) and the cooldown bookkeeping
`last_alert_time`, a map from the key `(type, severity)` to the time
of the last emission.  The source keys the map by the string
`f"{type}_{severity}"`; over the event kinds and the three severity
names this string determines the pair uniquely, so the map is keyed by
the pair. -/
structure AnalyzerState where
  heart_rate_history : List ℚ
  spo2_history : List ℚ
  temp_history : List ℚ
  last_alert_time : String × Severity → Option ℚ

/-- `_analyze_trends`: the three independent per-vital blocks in source
order. -/
def analyzeTrends (st : AnalyzerState) : List Alert :=
  hrTrend st.heart_rate_history ++ spo2Trend st.spo2_history ++
    tempTrend st.temp_history

/-- Default cooldown period: `self.alert_cooldown = 300` seconds. -/
def alertCooldownDefault : ℚ := 300

/-- Per-alert body of `_apply_cooldown`: drop the alert when its key
was emitted less than `cd` seconds ago, otherwise record `now` for the
key and keep the alert. -/
def cooldownStep (cd now : ℚ) (acc : (String × Severity → Option ℚ) × List Alert)
    (a : Alert) : (String × Severity → Option ℚ) × List Alert :=
  let key := (a.kind, a.severity)
  match acc.1 key with
  | some prior =>
      if now - prior < cd then acc
      else (fun k => if k = key then some now else acc.1 k, acc.2 ++ [a])
  | none => (fun k => if k = key then some now else acc.1 k, acc.2 ++ [a])

/-- `_apply_cooldown`: left-to-right pass over the alert list,
threading `last_alert_time` and collecting the surviving alerts. -/
def applyCooldown (cd now : ℚ) (st : String × Severity → Option ℚ)
    (alerts : List Alert) : (String × Severity → Option ℚ) × List Alert :=
  alerts.foldl (cooldownStep cd now) (st, [])

/-- The try-block of `VitalSignsAnalyzer.analyze`: update the three
histories with the raw reading values (no unit conversion), run the
three threshold analyzers and the trend analyzer on the updated
histories, then filter through the cooldown gate. -/
def analyzeBody (th : Thresholds) (cd now : ℚ) (st : AnalyzerState)
    (r : Reading) : AnalyzerState × List Alert :=
  let st1 : AnalyzerState :=
    { heart_rate_history :=
        match r.heart_rate with
        | some v => dequeAppend 60 st.heart_rate_history v
        | none => st.heart_rate_history
      spo2_history :=
        match r.spo2 with
        | some v => dequeAppend 60 st.spo2_history v
        | none => st.spo2_history
      temp_history :=
        match r.temperature with
        | some v => dequeAppend 60 st.temp_history v
        | none => st.temp_history
      last_alert_time := st.last_alert_time }
  let alerts :=
    analyzeHeartRate th.heart_rate r.heart_rate ++
    analyzeSpo2 th.spo2 r.spo2 ++
    analyzeTemperature th.temperature r ++
    analyzeTrends st1
  let filtered := applyCooldown cd now st.last_alert_time alerts
  ({ st1 with last_alert_time := filtered.1 }, filtered.2)

/-- The surrounding `try/except` of `analyze`: when the body runs to
completion its alert list is returned, and an exception anywhere in
the body is caught and the call returns the empty alert list (the
error branch carries the message of the raised exception). -/
def analyzeGuard (body : Except String (List Alert)) : List Alert :=
  match body with
  | .ok alerts => alerts
  | .error _ => []

/-- Notification channel names of `AlertManager`. -/
inductive Channel where
  | email
  | sms
  | localCh
deriving DecidableEq, Repr

/-- The `results` dict returned by `AlertManager.send_alert`: one
success flag per channel, all initialised to `False`. -/
structure DispatchOutcome where
  email : Bool
  sms : Bool
  localCh : Bool
deriving DecidableEq, Repr

/-- Transport collaborators behind the three channels.  Each transport
call either completes (`Except.ok`) or raises (`Except.error`); the
enabled flags model `EmailAlert.enabled`, `SMSAlert.enabled` and the
`indicators` availability of `LocalAlert`. -/
structure Transports where
  emailEnabled : Bool
  emailT : Alert → Except String Unit
  smsEnabled : Bool
  smsT : Alert → Except String Unit
  hasIndicators : Bool
  localT : Alert → Except String Unit

/-- `EmailAlert.send`: `False` when disabled, otherwise `True` when
the SMTP delivery completes and `False` when it raises (the exception
is caught inside `send`). -/
def emailSend (t : Transports) (a : Alert) : Bool :=
  if t.emailEnabled then
    match t.emailT a with
    | .ok _ => true
    | .error _ => false
  else false

/-- `SMSAlert.send`: same shape as the email channel, over the SMS
transport. -/
def smsSend (t : Transports) (a : Alert) : Bool :=
  if t.smsEnabled then
    match t.smsT a with
    | .ok _ => true
    | .error _ => false
  else false

/-- `LocalAlert.send`: `False` without indicator hardware, otherwise
`True` when driving the LED and buzzer completes and `False` when it
raises. -/
def localSend (t : Transports) (a : Alert) : Bool :=
  if t.hasIndicators then
    match t.localT a with
    | .ok _ => true
    | .error _ => false
  else false

/-- History capacity: `self.max_history = 1000`. -/
def maxHistory : ℕ := 1000

/-- The history update at the top of `send_alert`: append the alert,
then `pop(0)` once the length exceeds `max_history`. -/
def historyAppend (hist : List Alert) (a : Alert) : List Alert :=
  let h2 := hist ++ [a]
  if h2.length > maxHistory then h2.drop 1 else h2

/-- `AlertManager.send_alert`: record the alert in the history ring,
then attempt delivery on the severity-determined channels — all three
for critical, email and local for warning, local only otherwise.  The
result is the new history, the per-channel outcome dict, and the list
of channels on which a transport attempt was made (in call order). -/
def sendAlert (t : Transports) (hist : List Alert) (a : Alert) :
    List Alert × DispatchOutcome × List Channel :=
  let h3 := historyAppend hist a
  match a.severity with
  | .critical =>
      (h3, { email := emailSend t a, sms := smsSend t a, localCh := localSend t a },
       [.email, .sms, .localCh])
  | .warning =>
      (h3, { email := emailSend t a, sms := false, localCh := localSend t a },
       [.email, .localCh])
  | .info =>
      (h3, { email := false, sms := false, localCh := localSend t a },
       [.localCh])

/-- Tick outcomes of the monitoring loop in `main.py`: a successful
acquisition (with its analysis and dispatch completing), an
acquisition failure (`read_all` returned nothing), or an exception
raised anywhere in the tick body and caught by the inner handler. -/
inductive TickOutcome where
  | success
  | acqFailure
  | exc
deriving DecidableEq, Repr

/-- Escalation threshold: `max_consecutive_errors = 5`. -/
def maxConsecutiveErrors : ℕ := 5

/-- The synthesized escalation alert (`system_error`, critical). -/
def systemErrorAlert : Alert :=
  { kind := "system_error", severity := .critical, value := none,
    threshold := none }

/-- One iteration of the `while self.running` loop, restricted to the
consecutive-failure bookkeeping: a successful tick resets the counter;
an acquisition failure increments it and, when the incremented counter
has reached `max_consecutive_errors`, dispatches the escalation alert
and resets the counter; a caught exception only increments the
counter.  Returns the new counter and the system alerts dispatched by
this tick. -/
def tickStep (c : ℕ) (o : TickOutcome) : ℕ × List Alert :=
  match o with
  | .success => (0, [])
  | .acqFailure =>
      if c + 1 ≥ maxConsecutiveErrors then (0, [systemErrorAlert])
      else (c + 1, [])
  | .exc => (c + 1, [])

/-- Run the loop over a list of tick outcomes, accumulating every
dispatched system alert. -/
def runTicks (c : ℕ) (os : List TickOutcome) : ℕ × List Alert :=
  os.foldl (fun acc o =>
    let r := tickStep acc.1 o
    (r.1, acc.2 ++ r.2)) (c, [])

/-- Fresh analyzer state as built by `VitalSignsAnalyzer.__init__`:
empty histories, no cooldown bookkeeping. -/
def initialAnalyzerState : AnalyzerState :=
  { heart_rate_history := [], spo2_history := [], temp_history := [],
    last_alert_time := fun _ => none }

/-!  Theorems. -/

/-- The heart-rate chain emits at most one alert. -/
lemma analyzeHeartRateVal_length (th : VitalThresholds) (v : ℚ) :
    (analyzeHeartRateVal th v).length ≤ 1 := by
  unfold analyzeHeartRateVal
  split_ifs <;> simp

/-- The SpO2 chain emits at most one alert. -/
lemma analyzeSpo2Val_length (th : Spo2Thresholds) (v : ℚ) :
    (analyzeSpo2Val th v).length ≤ 1 := by
  unfold analyzeSpo2Val
  split_ifs <;> simp

/-- The temperature chain emits at most one alert. -/
lemma analyzeTempVal_length (th : VitalThresholds) (v : ℚ) :
    (analyzeTempVal th v).length ≤ 1 := by
  unfold analyzeTempVal
  split_ifs <;> simp

/-- Claim C1: for every reading and each vital, the classifier emits at
most one threshold event for that vital per call, chosen
first-match-wins in the precedence critical_min, critical_max, min,
max; in particular a vital value below critical_min yields exactly the
one critical event for that vital (and hence no warning-tier event for
it in the same call).  For temperature the compared value is the
Celsius-converted one. -/
theorem classifier_first_match (th : Thresholds) (r : Reading) (v : ℚ) :
    (analyzeHeartRate th.heart_rate r.heart_rate).length ≤ 1 ∧
    (analyzeSpo2 th.spo2 r.spo2).length ≤ 1 ∧
    (analyzeTemperature th.temperature r).length ≤ 1 ∧
    (v < th.heart_rate.critical_min →
      analyzeHeartRateVal th.heart_rate v =
        [{ kind := "heart_rate", severity := .critical, value := some v,
           threshold := some th.heart_rate.critical_min }]) ∧
    (¬ v < th.heart_rate.critical_min → v > th.heart_rate.critical_max →
      analyzeHeartRateVal th.heart_rate v =
        [{ kind := "heart_rate", severity := .critical, value := some v,
           threshold := some th.heart_rate.critical_max }]) ∧
    (¬ v < th.heart_rate.critical_min → ¬ v > th.heart_rate.critical_max →
      v < th.heart_rate.min →
      analyzeHeartRateVal th.heart_rate v =
        [{ kind := "heart_rate", severity := .warning, value := some v,
           threshold := some th.heart_rate.min }]) ∧
    (¬ v < th.heart_rate.critical_min → ¬ v > th.heart_rate.critical_max →
      ¬ v < th.heart_rate.min → v > th.heart_rate.max →
      analyzeHeartRateVal th.heart_rate v =
        [{ kind := "heart_rate", severity := .warning, value := some v,
           threshold := some th.heart_rate.max }]) ∧
    (v < th.spo2.critical_min →
      analyzeSpo2Val th.spo2 v =
        [{ kind := "spo2", severity := .critical, value := some v,
           threshold := some th.spo2.critical_min }]) ∧
    (¬ v < th.spo2.critical_min → v < th.spo2.min →
      analyzeSpo2Val th.spo2 v =
        [{ kind := "spo2", severity := .warning, value := some v,
           threshold := some th.spo2.min }]) ∧
    (v < th.temperature.critical_min →
      analyzeTempVal th.temperature v =
        [{ kind := "temperature", severity := .critical, value := some v,
           threshold := some th.temperature.critical_min }]) ∧
    (¬ v < th.temperature.critical_min → v > th.temperature.critical_max →
      analyzeTempVal th.temperature v =
        [{ kind := "temperature", severity := .critical, value := some v,
           threshold := some th.temperature.critical_max }]) ∧
    (¬ v < th.temperature.critical_min → ¬ v > th.temperature.critical_max →
      v < th.temperature.min →
      analyzeTempVal th.temperature v =
        [{ kind := "temperature", severity := .warning, value := some v,
           threshold := some th.temperature.min }]) ∧
    (¬ v < th.temperature.critical_min → ¬ v > th.temperature.critical_max →
      ¬ v < th.temperature.min → v > th.temperature.max →
      analyzeTempVal th.temperature v =
        [{ kind := "temperature",
           severity := if v < 38.5 then .warning else .critical,
           value := some v, threshold := some th.temperature.max }]) ∧
    (r.heart_rate = some v →
      analyzeHeartRate th.heart_rate r.heart_rate =
        analyzeHeartRateVal th.heart_rate v) ∧
    (r.spo2 = some v →
      analyzeSpo2 th.spo2 r.spo2 = analyzeSpo2Val th.spo2 v) ∧
    (r.temperature = some v →
      analyzeTemperature th.temperature r =
        analyzeTempVal th.temperature (toCelsius r.temperature_unit v)) := by
  refine ⟨?_, ?_, ?_, ?_, ?_, ?_, ?_, ?_, ?_, ?_, ?_, ?_, ?_, ?_, ?_, ?_⟩
  · rcases hh : r.heart_rate with _ | x
    · simp [analyzeHeartRate, hh]
    · simpa [analyzeHeartRate, hh] using analyzeHeartRateVal_length th.heart_rate x
  · rcases hh : r.spo2 with _ | x
    · simp [analyzeSpo2, hh]
    · simpa [analyzeSpo2, hh] using analyzeSpo2Val_length th.spo2 x
  · rcases hh : r.temperature with _ | x
    · simp [analyzeTemperature, hh]
    · simpa [analyzeTemperature, hh] using
        analyzeTempVal_length th.temperature (toCelsius r.temperature_unit x)
  · intro h1; simp [analyzeHeartRateVal, h1]
  · intro h1 h2; simp [analyzeHeartRateVal, h1, h2]
  · intro h1 h2 h3; simp [analyzeHeartRateVal, h1, h2, h3]
  · intro h1 h2 h3 h4; simp [analyzeHeartRateVal, h1, h2, h3, h4]
  · intro h1; simp [analyzeSpo2Val, h1]
  · intro h1 h2; simp [analyzeSpo2Val, h1, h2]
  · intro h1; simp [analyzeTempVal, h1]
  · intro h1 h2; simp [analyzeTempVal, h1, h2]
  · intro h1 h2 h3; simp [analyzeTempVal, h1, h2, h3]
  · intro h1 h2 h3 h4; simp [analyzeTempVal, h1, h2, h3, h4]
  · intro h1; simp [analyzeHeartRate, h1]
  · intro h1; simp [analyzeSpo2, h1]
  · intro h1; simp [analyzeTemperature, h1]

/-- Witness for C1 at the default thresholds: heart rate 35 is below
critical_min 40 and yields exactly the single critical bradycardia
event. -/
theorem classifier_first_match_witness :
    analyzeHeartRateVal defaultThresholds.heart_rate 35 =
      [{ kind := "heart_rate", severity := .critical, value := some 35,
         threshold := some 40 }] := by
  have h := (classifier_first_match defaultThresholds
    { heart_rate := some 35, spo2 := none, temperature := none,
      temperature_unit := .C } 35).2.2.2.1
  simpa [defaultThresholds] using h (by norm_num [defaultThresholds])

/-- Claim C7: with a well-ordered threshold configuration
(critical_min ≤ min ≤ max ≤ critical_max per vital), all comparisons
are strict: a vital value anywhere in the closed interval [min, max]
(in particular exactly equal to min or max) produces no threshold
event, and a value exactly equal to critical_min or critical_max never
fires the event of that critical bound (no emitted event carries it as
its threshold). -/
theorem strict_boundaries (th : Thresholds) (v : ℚ)
    (hr1 : th.heart_rate.critical_min ≤ th.heart_rate.min)
    (hr2 : th.heart_rate.min ≤ th.heart_rate.max)
    (hr3 : th.heart_rate.max ≤ th.heart_rate.critical_max)
    (hs1 : th.spo2.critical_min ≤ th.spo2.min)
    (ht1 : th.temperature.critical_min ≤ th.temperature.min)
    (ht2 : th.temperature.min ≤ th.temperature.max)
    (ht3 : th.temperature.max ≤ th.temperature.critical_max) :
    (th.heart_rate.min ≤ v → v ≤ th.heart_rate.max →
      analyzeHeartRateVal th.heart_rate v = []) ∧
    (v = th.heart_rate.critical_min →
      ∀ e ∈ analyzeHeartRateVal th.heart_rate v,
        e.threshold ≠ some th.heart_rate.critical_min) ∧
    (v = th.heart_rate.critical_max →
      ∀ e ∈ analyzeHeartRateVal th.heart_rate v,
        e.threshold ≠ some th.heart_rate.critical_max) ∧
    (th.spo2.min ≤ v → analyzeSpo2Val th.spo2 v = []) ∧
    (v = th.spo2.critical_min →
      ∀ e ∈ analyzeSpo2Val th.spo2 v,
        e.threshold ≠ some th.spo2.critical_min) ∧
    (th.temperature.min ≤ v → v ≤ th.temperature.max →
      analyzeTempVal th.temperature v = []) ∧
    (v = th.temperature.critical_min →
      ∀ e ∈ analyzeTempVal th.temperature v,
        e.threshold ≠ some th.temperature.critical_min) ∧
    (v = th.temperature.critical_max →
      ∀ e ∈ analyzeTempVal th.temperature v,
        e.threshold ≠ some th.temperature.critical_max) := by
  refine ⟨?_, ?_, ?_, ?_, ?_, ?_, ?_, ?_⟩
  · intro p q
    unfold analyzeHeartRateVal
    split_ifs with a b c d <;> first | rfl | (exfalso; linarith)
  · intro hv e he
    unfold analyzeHeartRateVal at he
    split_ifs at he with a b c d
    · exfalso; linarith
    · exfalso; linarith
    · simp only [List.mem_singleton] at he
      subst he
      simp only [ne_eq, Option.some.injEq]
      intro h'
      linarith
    · exfalso; linarith
    · simp at he
  · intro hv e he
    unfold analyzeHeartRateVal at he
    split_ifs at he with a b c d
    · exfalso; linarith
    · exfalso; linarith
    · exfalso; linarith
    · simp only [List.mem_singleton] at he
      subst he
      simp only [ne_eq, Option.some.injEq]
      intro h'
      linarith
    · simp at he
  · intro p
    unfold analyzeSpo2Val
    split_ifs with a b <;> first | rfl | (exfalso; linarith)
  · intro hv e he
    unfold analyzeSpo2Val at he
    split_ifs at he with a b
    · exfalso; linarith
    · simp only [List.mem_singleton] at he
      subst he
      simp only [ne_eq, Option.some.injEq]
      intro h'
      linarith
    · simp at he
  · intro p q
    unfold analyzeTempVal
    split_ifs with a b c d <;> first | rfl | (exfalso; linarith)
  · intro hv e he
    unfold analyzeTempVal at he
    split_ifs at he with a b c d
    · exfalso; linarith
    · exfalso; linarith
    · simp only [List.mem_singleton] at he
      subst he
      simp only [ne_eq, Option.some.injEq]
      intro h'
      linarith
    · exfalso; linarith
    · exfalso; linarith
    · simp at he
  · intro hv e he
    unfold analyzeTempVal at he
    split_ifs at he with a b c d
    · exfalso; linarith
    · exfalso; linarith
    · exfalso; linarith
    · simp only [List.mem_singleton] at he
      subst he
      simp only [ne_eq, Option.some.injEq]
      intro h'
      linarith
    · simp only [List.mem_singleton] at he
      subst he
      simp only [ne_eq, Option.some.injEq]
      intro h'
      linarith
    · simp at he

/-- Witness for C7 at the default thresholds: heart rate exactly at the
warning bound 60 raises nothing, and SpO2 exactly at critical_min 90
fires no event carrying the critical_min threshold. -/
theorem strict_boundaries_witness :
    analyzeHeartRateVal defaultThresholds.heart_rate 60 = [] ∧
    ∀ e ∈ analyzeSpo2Val defaultThresholds.spo2 90,
      e.threshold ≠ some defaultThresholds.spo2.critical_min := by
  constructor
  · exact (strict_boundaries defaultThresholds 60
      (by norm_num [defaultThresholds]) (by norm_num [defaultThresholds])
      (by norm_num [defaultThresholds]) (by norm_num [defaultThresholds])
      (by norm_num [defaultThresholds]) (by norm_num [defaultThresholds])
      (by norm_num [defaultThresholds])).1
      (by norm_num [defaultThresholds]) (by norm_num [defaultThresholds])
  · exact (strict_boundaries defaultThresholds 90
      (by norm_num [defaultThresholds]) (by norm_num [defaultThresholds])
      (by norm_num [defaultThresholds]) (by norm_num [defaultThresholds])
      (by norm_num [defaultThresholds]) (by norm_num [defaultThresholds])
      (by norm_num [defaultThresholds])).2.2.2.2.1
      (by norm_num [defaultThresholds])

/-- Claim C2: an event is dropped by the cooldown gate exactly when its
key (vital, severity) carries a prior timestamp with now minus prior
strictly below the cooldown period; a dropped event leaves the whole
cooldown state (in particular its key) unchanged, a surviving event is
forwarded and its key is updated to now while every other key — in
particular the same vital under a different severity — is untouched;
`_apply_cooldown` is the left-to-right pass of this step over the
alert list. -/
theorem cooldown_gate (cd now : ℚ) (st : String × Severity → Option ℚ)
    (acc : List Alert) (a : Alert) (as : List Alert) :
    ((cooldownStep cd now (st, acc) a).2 = acc ↔
      ∃ p, st (a.kind, a.severity) = some p ∧ now - p < cd) ∧
    ((∃ p, st (a.kind, a.severity) = some p ∧ now - p < cd) →
      cooldownStep cd now (st, acc) a = (st, acc)) ∧
    ((¬ ∃ p, st (a.kind, a.severity) = some p ∧ now - p < cd) →
      (cooldownStep cd now (st, acc) a).2 = acc ++ [a] ∧
      (cooldownStep cd now (st, acc) a).1 (a.kind, a.severity) = some now ∧
      ∀ k, k ≠ (a.kind, a.severity) →
        (cooldownStep cd now (st, acc) a).1 k = st k) ∧
    applyCooldown cd now st as = as.foldl (cooldownStep cd now) (st, []) := by
  refine ⟨?_, ?_, ?_, rfl⟩
  · cases hk : st (a.kind, a.severity) with
    | none => simp [cooldownStep, hk]
    | some p =>
      by_cases hc : now - p < cd
      · simp [cooldownStep, hk, hc]
      · simp [cooldownStep, hk, hc]
  · rintro ⟨p, hk, hc⟩
    simp [cooldownStep, hk, hc]
  · intro hn
    cases hk : st (a.kind, a.severity) with
    | none =>
      refine ⟨by simp [cooldownStep, hk], by simp [cooldownStep, hk], ?_⟩
      intro k hkne
      simp [cooldownStep, hk, hkne]
    | some p =>
      have hc : ¬ now - p < cd := fun hcc => hn ⟨p, hk, hcc⟩
      refine ⟨by simp [cooldownStep, hk, hc], by simp [cooldownStep, hk, hc], ?_⟩
      intro k hkne
      simp [cooldownStep, hk, hc, hkne]

/-- Witness for C2 with the default 300-second period: a heart-rate
warning emitted 100 seconds after the previous one with the same key
is dropped and leaves the state unchanged, while a fresh key survives. -/
theorem cooldown_gate_witness :
    cooldownStep alertCooldownDefault 400
      (fun k => if k = ("heart_rate", Severity.warning) then some 300 else none, [])
      { kind := "heart_rate", severity := .warning, value := some 55,
        threshold := some 60 } =
      (fun k => if k = ("heart_rate", Severity.warning) then some 300 else none,
        []) := by
  exact (cooldown_gate alertCooldownDefault 400
    (fun k => if k = ("heart_rate", Severity.warning) then some 300 else none)
    [] { kind := "heart_rate", severity := .warning, value := some 55,
         threshold := some 60 } []).2.1
    ⟨300, by norm_num, by norm_num [alertCooldownDefault]⟩

/-- Claim C3: per vital, a trend event is produced exactly when the
rolling window holds at least 10 samples and the mean of the last five
exceeds the mean of the five preceding by more than 20 (heart rate,
warning), falls below it by more than 3 (SpO2, warning), or exceeds it
by more than 0.5 (temperature, info); with at most 9 buffered samples
no trend event is produced, and each vital contributes at most one
event per call. -/
theorem trend_detection (st : AnalyzerState) (h : List ℚ) :
    analyzeTrends st = hrTrend st.heart_rate_history ++
      spo2Trend st.spo2_history ++ tempTrend st.temp_history ∧
    (hrTrend h ≠ [] ↔ 10 ≤ h.length ∧ recentAvg h > olderAvg h + 20) ∧
    (10 ≤ h.length → recentAvg h > olderAvg h + 20 →
      hrTrend h = [{ kind := "heart_rate_trend", severity := .warning,
                     value := some (recentAvg h - olderAvg h),
                     threshold := none }]) ∧
    (h.length ≤ 9 → hrTrend h = []) ∧
    (hrTrend h).length ≤ 1 ∧
    (spo2Trend h ≠ [] ↔ 10 ≤ h.length ∧ recentAvg h < olderAvg h - 3) ∧
    (10 ≤ h.length → recentAvg h < olderAvg h - 3 →
      spo2Trend h = [{ kind := "spo2_trend", severity := .warning,
                       value := some (recentAvg h - olderAvg h),
                       threshold := none }]) ∧
    (h.length ≤ 9 → spo2Trend h = []) ∧
    (spo2Trend h).length ≤ 1 ∧
    (tempTrend h ≠ [] ↔ 10 ≤ h.length ∧ recentAvg h > olderAvg h + 0.5) ∧
    (10 ≤ h.length → recentAvg h > olderAvg h + 0.5 →
      tempTrend h = [{ kind := "temperature_trend", severity := .info,
                       value := some (recentAvg h - olderAvg h),
                       threshold := none }]) ∧
    (h.length ≤ 9 → tempTrend h = []) ∧
    (tempTrend h).length ≤ 1 := by
  refine ⟨rfl, ?_, ?_, ?_, ?_, ?_, ?_, ?_, ?_, ?_, ?_, ?_, ?_⟩
  · unfold hrTrend; split_ifs <;> simp_all
  · intro h1 h2; simp [hrTrend, h1, h2]
  · intro h1; unfold hrTrend; rw [if_neg (by omega)]
  · unfold hrTrend; split_ifs <;> simp
  · unfold spo2Trend; split_ifs <;> simp_all
  · intro h1 h2; simp [spo2Trend, h1, h2]
  · intro h1; unfold spo2Trend; rw [if_neg (by omega)]
  · unfold spo2Trend; split_ifs <;> simp
  · unfold tempTrend; split_ifs <;> simp_all
  · intro h1 h2; simp [tempTrend, h1, h2]
  · intro h1; unfold tempTrend; rw [if_neg (by omega)]
  · unfold tempTrend; split_ifs <;> simp

/-- Witness for C3: a ten-sample heart-rate window jumping from a mean
of 60 over the older five to 90 over the recent five fires exactly the
single warning trend event. -/
theorem trend_detection_witness :
    hrTrend [60, 60, 60, 60, 60, 90, 90, 90, 90, 90] =
      [{ kind := "heart_rate_trend", severity := .warning,
         value := some (recentAvg [60, 60, 60, 60, 60, 90, 90, 90, 90, 90] -
           olderAvg [60, 60, 60, 60, 60, 90, 90, 90, 90, 90]),
         threshold := none }] := by
  exact (trend_detection initialAnalyzerState
    [60, 60, 60, 60, 60, 90, 90, 90, 90, 90]).2.2.1
    (by norm_num) (by norm_num [recentAvg, olderAvg])

/-- Counterexample for C4: four acquisition failures followed by a tick
whose body raises bring the consecutive-failure counter to the
threshold 5, yet no system_error event is dispatched and the counter
is not reset — the threshold check runs only on acquisition-failure
ticks, so the claim as stated fails on this trace. -/
theorem monitor_escalation_cex :
    (runTicks 0 [.acqFailure, .acqFailure, .acqFailure, .acqFailure,
      .exc]).1 = 5 ∧
    (runTicks 0 [.acqFailure, .acqFailure, .acqFailure, .acqFailure,
      .exc]).2 = [] := by
  exact ⟨rfl, rfl⟩

/-- Claim C4 (amended): failed acquisitions and exception ticks both
increment the consecutive-failure counter; on an acquisition-failure
tick whose incremented counter has reached the threshold 5, exactly
one critical system_error event is dispatched and the counter resets
to 0, while an exception tick increments without performing the
threshold check; six consecutive acquisition failures dispatch the
escalation exactly once, the sixth failure starting a new cycle. -/
theorem monitor_escalation (c : ℕ) :
    tickStep c .success = (0, []) ∧
    tickStep c .exc = (c + 1, []) ∧
    (c + 1 ≥ maxConsecutiveErrors →
      tickStep c .acqFailure = (0, [systemErrorAlert])) ∧
    (c + 1 < maxConsecutiveErrors →
      tickStep c .acqFailure = (c + 1, [])) ∧
    runTicks 0 (List.replicate 6 .acqFailure) = (1, [systemErrorAlert]) := by
  refine ⟨rfl, rfl, ?_, ?_, rfl⟩
  · intro h1; simp [tickStep, h1]
  · intro h1; simp [tickStep, Nat.not_le_of_lt h1, if_neg]

/-- Witness for C4: the fifth consecutive acquisition failure fires the
escalation and resets the counter. -/
theorem monitor_escalation_witness :
    tickStep 4 .acqFailure = (0, [systemErrorAlert]) := by
  exact (monitor_escalation 4).2.2.1 (by norm_num [maxConsecutiveErrors])

/-- Counterexample for C5: a Celsius temperature of exactly 38.5 with
the default thresholds reaches the fever branch and is emitted with
severity critical although the value does not exceed 38.5, so the
claimed warning severity at the boundary fails. -/
theorem fever_boundary_cex :
    analyzeTempVal defaultThresholds.temperature 38.5 =
      [{ kind := "temperature", severity := .critical, value := some 38.5,
         threshold := some 37.8 }] ∧
    ¬ (38.5 : ℚ) > 38.5 := by
  constructor
  · norm_num [analyzeTempVal, defaultThresholds]
  · norm_num

/-- Claim C5 (amended): a temperature reaching the warning fever branch
(above max, not caught by a critical bound) is emitted with severity
warning when the value is strictly below 38.5 degrees Celsius and with
severity critical when the value is at least 38.5 degrees Celsius. -/
theorem fever_two_tier (th : VitalThresholds) (v : ℚ)
    (h1 : ¬ v < th.critical_min) (h2 : ¬ v > th.critical_max)
    (h3 : ¬ v < th.min) (h4 : v > th.max) :
    (v < 38.5 →
      analyzeTempVal th v =
        [{ kind := "temperature", severity := .warning, value := some v,
           threshold := some th.max }]) ∧
    ((38.5 : ℚ) ≤ v →
      analyzeTempVal th v =
        [{ kind := "temperature", severity := .critical, value := some v,
           threshold := some th.max }]) := by
  constructor
  · intro h5
    simp [analyzeTempVal, h1, h2, h3, h4, h5]
  · intro h5
    simp [analyzeTempVal, h1, h2, h3, h4, not_lt.mpr h5]

/-- Witness for C5 at the default thresholds: 38.0 degrees is a warning
fever, 38.5 degrees a critical one. -/
theorem fever_two_tier_witness :
    analyzeTempVal defaultThresholds.temperature 38 =
      [{ kind := "temperature", severity := .warning, value := some 38,
         threshold := some defaultThresholds.temperature.max }] ∧
    analyzeTempVal defaultThresholds.temperature 38.5 =
      [{ kind := "temperature", severity := .critical, value := some 38.5,
         threshold := some defaultThresholds.temperature.max }] := by
  constructor
  · exact (fever_two_tier defaultThresholds.temperature 38
      (by norm_num [defaultThresholds]) (by norm_num [defaultThresholds])
      (by norm_num [defaultThresholds]) (by norm_num [defaultThresholds])).1
      (by norm_num)
  · exact (fever_two_tier defaultThresholds.temperature 38.5
      (by norm_num [defaultThresholds]) (by norm_num [defaultThresholds])
      (by norm_num [defaultThresholds]) (by norm_num [defaultThresholds])).2
      (by norm_num)

/-- Claim C6: a critical event attempts delivery on exactly the
channels email, sms, local (in that order), a warning event on exactly
email and local, an info event on exactly local; each attempted
channel has as outcome in the returned per-channel mapping the send
result of its own transport, independent of the other channels, and
non-attempted channels report false. -/
theorem dispatch_routing (t : Transports) (hist : List Alert) (a : Alert) :
    (a.severity = .critical →
      (sendAlert t hist a).2 =
        ({ email := emailSend t a, sms := smsSend t a,
           localCh := localSend t a },
         [Channel.email, Channel.sms, Channel.localCh])) ∧
    (a.severity = .warning →
      (sendAlert t hist a).2 =
        ({ email := emailSend t a, sms := false, localCh := localSend t a },
         [Channel.email, Channel.localCh])) ∧
    (a.severity = .info →
      (sendAlert t hist a).2 =
        ({ email := false, sms := false, localCh := localSend t a },
         [Channel.localCh])) := by
  refine ⟨?_, ?_, ?_⟩ <;> intro hs <;> simp [sendAlert, hs]

/-- Witness for C6: a warning alert against transports whose email
delivery raises is attempted on email and local only, with the email
failure reported as false and the local success as true. -/
theorem dispatch_routing_witness :
    (sendAlert
      { emailEnabled := true, emailT := fun _ => .error "smtp down",
        smsEnabled := true, smsT := fun _ => .ok (),
        hasIndicators := true, localT := fun _ => .ok () }
      []
      { kind := "heart_rate", severity := .warning, value := some 55,
        threshold := some 60 }).2 =
      ({ email := false, sms := false, localCh := true },
       [Channel.email, Channel.localCh]) := by
  have h := (dispatch_routing
    { emailEnabled := true, emailT := fun _ => .error "smtp down",
      smsEnabled := true, smsT := fun _ => .ok (),
      hasIndicators := true, localT := fun _ => .ok () }
    []
    { kind := "heart_rate", severity := .warning, value := some 55,
      threshold := some 60 }).2.1 rfl
  simpa [emailSend, smsSend, localSend] using h

/-- Claim C8: the analysis guard returns the empty alert list whenever
the body raises and the alerts of the body otherwise; a channel whose
transport raises reports false instead of propagating the fault, and a
dispatch of a critical event still attempts every channel, so failure
of some or all channels never raises past the dispatch call. -/
theorem error_containment (e : String) (as : List Alert) (t : Transports)
    (a : Alert) (hist : List Alert) (err : String) :
    analyzeGuard (Except.error e) = [] ∧
    analyzeGuard (Except.ok as) = as ∧
    (t.emailT a = .error err → emailSend t a = false) ∧
    (t.smsT a = .error err → smsSend t a = false) ∧
    (t.localT a = .error err → localSend t a = false) ∧
    (a.severity = .critical →
      (sendAlert t hist a).2.2 =
        [Channel.email, Channel.sms, Channel.localCh]) := by
  refine ⟨rfl, rfl, ?_, ?_, ?_, ?_⟩
  · intro h; simp [emailSend, h]
  · intro h; simp [smsSend, h]
  · intro h; simp [localSend, h]
  · intro h; simp [sendAlert, h]

/-- Witness for C8: a critical alert against transports that all raise
is still attempted on all three channels, each failure reported as
false. -/
theorem error_containment_witness :
    emailSend
      { emailEnabled := true, emailT := fun _ => .error "boom",
        smsEnabled := true, smsT := fun _ => .error "boom",
        hasIndicators := true, localT := fun _ => .error "boom" }
      systemErrorAlert = false ∧
    (sendAlert
      { emailEnabled := true, emailT := fun _ => .error "boom",
        smsEnabled := true, smsT := fun _ => .error "boom",
        hasIndicators := true, localT := fun _ => .error "boom" }
      [] systemErrorAlert).2.2 =
      [Channel.email, Channel.sms, Channel.localCh] := by
  constructor
  · exact (error_containment "e" []
      { emailEnabled := true, emailT := fun _ => .error "boom",
        smsEnabled := true, smsT := fun _ => .error "boom",
        hasIndicators := true, localT := fun _ => .error "boom" }
      systemErrorAlert [] "boom").2.2.1 rfl
  · exact (error_containment "e" []
      { emailEnabled := true, emailT := fun _ => .error "boom",
        smsEnabled := true, smsT := fun _ => .error "boom",
        hasIndicators := true, localT := fun _ => .error "boom" }
      systemErrorAlert [] "boom").2.2.2.2.2 rfl

/-- The history component of `send_alert` does not depend on the
severity routing: it is always the ring-buffer append. -/
lemma sendAlert_fst (t : Transports) (hist : List Alert) (a : Alert) :
    (sendAlert t hist a).1 = historyAppend hist a := by
  rcases a with ⟨k, s, v, th⟩
  cases s <;> rfl

/-- Folding the ring-buffer append from a state within capacity keeps
exactly the newest `maxHistory` entries of everything appended. -/
lemma foldl_historyAppend (es : List Alert) :
    ∀ h : List Alert, h.length ≤ maxHistory →
      es.foldl historyAppend h =
        (h ++ es).drop (h.length + es.length - maxHistory) := by
  induction es with
  | nil =>
    intro h hh
    simp [Nat.sub_eq_zero_of_le hh]
  | cons a es ih =>
    intro h hh
    rw [List.foldl_cons]
    by_cases hl : h.length + 1 > maxHistory
    · have hEq : h.length = maxHistory := by omega
      have hm : (1:ℕ) ≤ maxHistory := by norm_num [maxHistory]
      have h1 : (1:ℕ) ≤ h.length := by omega
      have hstep : historyAppend h a = h.drop 1 ++ [a] := by
        simp only [historyAppend]
        rw [if_pos (by simpa using hl)]
        exact List.drop_append_of_le_length h1
      have hlen : (h.drop 1 ++ [a]).length ≤ maxHistory := by
        simp [List.length_drop]
        omega
      rw [hstep, ih _ hlen]
      have e1 : (h.drop 1 ++ [a]) ++ es = h.drop 1 ++ a :: es := by simp
      have e2 : (h.drop 1 ++ [a]).length + es.length - maxHistory =
          es.length := by
        simp [List.length_drop]
        omega
      have e3 : h.length + (a :: es).length - maxHistory = 1 + es.length := by
        simp [List.length_cons]
        omega
      rw [e1, e2, e3, ← List.drop_drop es.length 1,
        List.drop_append_of_le_length h1]
    · have hstep : historyAppend h a = h ++ [a] := by
        simp only [historyAppend]
        rw [if_neg (by simpa using hl)]
      have hlen : (h ++ [a]).length ≤ maxHistory := by
        simp
        omega
      rw [hstep, ih _ hlen]
      have e1 : (h ++ [a]) ++ es = h ++ a :: es := by simp
      have e2 : (h ++ [a]).length + es.length - maxHistory =
          h.length + (a :: es).length - maxHistory := by
        simp
        omega
      rw [e1, e2]

/-- Threading the alert history through consecutive `send_alert` calls
is the same as folding the ring-buffer append. -/
lemma sendAlert_history_fold (t : Transports) (es : List Alert) :
    ∀ h : List Alert,
      es.foldl (fun acc a => (sendAlert t acc a).1) h =
        es.foldl historyAppend h := by
  induction es with
  | nil => intro h; rfl
  | cons a es ih =>
    intro h
    rw [List.foldl_cons, List.foldl_cons, sendAlert_fst, ih]

/-- Claim C9: after any sequence of dispatch calls starting from the
empty history, the alert history is exactly the suffix of the most
recently dispatched events, in dispatch order, with the oldest evicted
first beyond the capacity 1000; in particular it never exceeds 1000
entries, and each dispatched event was appended exactly once. -/
theorem history_ring_buffer (t : Transports) (events : List Alert) :
    events.foldl (fun acc a => (sendAlert t acc a).1) [] =
      events.drop (events.length - maxHistory) ∧
    (events.foldl (fun acc a => (sendAlert t acc a).1) []).length ≤
      maxHistory := by
  have h1 := sendAlert_history_fold t events []
  have h2 := foldl_historyAppend events [] (by simp)
  constructor
  · rw [h1, h2]
    simp
  · rw [h1, h2]
    simp [List.length_drop]
    omega

/-- Claim C10: the temperature rolling window receives the raw entered
value before any Fahrenheit-to-Celsius conversion, so for a Fahrenheit
reading the trend history holds the Fahrenheit value while the
threshold classification of the same reading runs on the converted
Celsius value. -/
theorem raw_history_vs_converted (th : Thresholds) (cd now : ℚ)
    (st : AnalyzerState) (r : Reading) (t : ℚ)
    (h1 : r.temperature = some t) (h2 : r.temperature_unit = .F) :
    (analyzeBody th cd now st r).1.temp_history =
      dequeAppend 60 st.temp_history t ∧
    analyzeTemperature th.temperature r =
      analyzeTempVal th.temperature ((t - 32) * 5 / 9) := by
  constructor
  · simp [analyzeBody, h1]
  · simp [analyzeTemperature, h1, toCelsius, h2]

/-- Witness for C10: a 101.3-degree Fahrenheit reading stores 101.3 in
the rolling window while classification sees 38.5 Celsius and fires
the escalated fever event. -/
theorem raw_history_vs_converted_witness :
    (analyzeBody defaultThresholds alertCooldownDefault 0
      initialAnalyzerState
      { heart_rate := none, spo2 := none, temperature := some 101.3,
        temperature_unit := .F }).1.temp_history = [(101.3:ℚ)] ∧
    analyzeTemperature defaultThresholds.temperature
      { heart_rate := none, spo2 := none, temperature := some 101.3,
        temperature_unit := .F } =
      [{ kind := "temperature", severity := .critical, value := some 38.5,
         threshold := some 37.8 }] := by
  have h := raw_history_vs_converted defaultThresholds alertCooldownDefault 0
    initialAnalyzerState
    { heart_rate := none, spo2 := none, temperature := some 101.3,
      temperature_unit := .F } 101.3 rfl rfl
  constructor
  · rw [h.1]
    norm_num [dequeAppend, initialAnalyzerState]
  · rw [h.2]
    norm_num [analyzeTempVal, defaultThresholds]

end EdgePulse
